import Mathlib

/-!
# Verification of the rectospec recording-normalization and generation pipeline

Shallow embedding of the core of the `rectospec` repository:

* `src/parser/chrome-recorder.ts` — recording normalization
  (`parseRecording`, `convertStepToAction`, `extractSelector`);
* `src/parser/types.ts` — the Zod schemas `ChromeRecorderStepSchema` /
  `ChromeRecorderSchema` and the `ParsedAction` / `ParsedRecording` shapes;
* `src/config/types.ts`, `src/config/defaults.ts`, `src/config/manager.ts` —
  persisted configuration, the two-scope `ConfigManager`
  (`findConfigPath` / `load` / `save` / `update` / `getApiKey`);
* `src/llm/provider.ts` — credential resolution (`getApiKey`), provider
  dispatch (`getModel`), `generateGherkin` and
  `extractGherkinFromResponse`.

Modelling conventions:

* JavaScript `undefined`-able values are `Option`; an object property whose
  value is `undefined` is modelled as "absent" (this is how every caller in
  the repository builds its objects, and `JSON.stringify` drops such keys).
* JSON numbers are modelled as `Int`: no claim observes a numeric payload,
  only whether a field validates as a number.
* JavaScript truthiness on `string | undefined` (`if (x)`, `x ? a : b`,
  `x || d`) is modelled by `jsTruthyStr` / `jsOrStr`: the empty string and
  `undefined` are falsy.
* String interpolation of a possibly-`undefined` value (backquote templates)
  coerces `undefined` to the text `undefined`; this is `jsStr`.
* File-system state is a pair of optional structured configurations (the
  local-scope and global-scope config files); serialization round-trips are
  not re-modelled, since every claim is about the structured contents.
-/

/-- JSON values, as produced by `JSON.parse` (numbers restricted to `Int`:
no claim observes a numeric payload). -/
inductive Json where
  | null : Json
  | bool (b : Bool) : Json
  | num (n : Int) : Json
  | str (s : String) : Json
  | arr (elems : List Json) : Json
  | obj (fields : List (String × Json)) : Json

/-- Property lookup on a JSON object (first binding wins). -/
def Json.getField (fields : List (String × Json)) (key : String) : Option Json :=
  match fields with
  | [] => none
  | (k, v) :: rest => if k = key then some v else Json.getField rest key

/-- The `type` enumeration of `ChromeRecorderStepSchema` (`z.enum([...])`). -/
inductive StepType where
  | navigate | click | change | keyDown | keyUp | scroll
  | doubleClick | hover | setViewport | waitForElement | waitForExpression
deriving DecidableEq, BEq, Repr

/-- One entry of the `assertedEvents` array of a recorder step. -/
structure AssertedEvent where
  type : String
  title : Option String
  url : Option String
deriving DecidableEq, Repr

/-- A validated Chrome-recorder step (`z.infer<typeof ChromeRecorderStepSchema>`). -/
structure ChromeRecorderStep where
  type : StepType
  url : Option String := none
  selectors : Option (List (List String)) := none
  offsetX : Option Int := none
  offsetY : Option Int := none
  target : Option String := none
  frame : Option (List Int) := none
  assertedEvents : Option (List AssertedEvent) := none
  value : Option String := none
  key : Option String := none
  operator : Option String := none
  count : Option Int := none
  expression : Option String := none
  x : Option Int := none
  y : Option Int := none
  width : Option Int := none
  height : Option Int := none
  deviceScaleFactor : Option Int := none
  isMobile : Option Bool := none
  hasTouch : Option Bool := none
  isLandscape : Option Bool := none
deriving DecidableEq, Repr

/-- A validated Chrome recording (`z.infer<typeof ChromeRecorderSchema>`). -/
structure ChromeRecording where
  title : String
  steps : List ChromeRecorderStep
  timeout : Option Int := none
deriving DecidableEq, Repr

/-- The `type` union of `ParsedAction`. -/
inductive ActionType where
  | navigate | click | type | change | keyDown | scroll | wait
deriving DecidableEq, BEq, Repr

/-- `ParsedAction` (simplified action produced by normalization). -/
structure ParsedAction where
  type : ActionType
  selector : Option String := none
  value : Option String := none
  url : Option String := none
  description : String
deriving DecidableEq, Repr

/-- `ParsedRecording.metadata`. -/
structure ParsedMetadata where
  url : String
  stepCount : Nat
deriving DecidableEq, Repr

/-- `ParsedRecording`. -/
structure ParsedRecording where
  title : String
  steps : List ParsedAction
  metadata : ParsedMetadata
deriving DecidableEq, Repr

/-- JS template-literal interpolation of a `string | undefined` value:
`undefined` prints as the text `undefined`. -/
def jsStr (o : Option String) : String := o.getD "undefined"

/-- JS truthiness of a `string | undefined` value: `undefined` and the empty
string are falsy; a truthy value is returned as `some`. -/
def jsTruthyStr : Option String → Option String
  | some s => if s = "" then none else some s
  | none => none

/-- JS `x || d` on a `string | undefined` value `x` and string default `d`. -/
def jsOrStr (o : Option String) (d : String) : String :=
  match jsTruthyStr o with
  | some s => s
  | none => d

/-- `extractSelector` from `chrome-recorder.ts`: last element of the first
selector chain, or `undefined` when no (non-empty) chain is present. -/
def extractSelector (selectors : Option (List (List String))) : Option String :=
  match selectors with
  | none => none
  | some [] => none
  | some (chain :: _) => chain.getLast?

/-- `convertStepToAction` from `chrome-recorder.ts`: project one validated
step to a `ParsedAction`, or `none` for the filtered step types.  Ternaries
on the selector use JS truthiness (`jsTruthyStr`); template interpolation of
optional fields uses `jsStr`. -/
def convertStepToAction (step : ChromeRecorderStep) : Option ParsedAction :=
  let selector := extractSelector step.selectors
  match step.type with
  | .navigate =>
      some { type := .navigate, url := step.url,
             description := "Navigate to page \"" ++ jsStr step.url ++ "\"" }
  | .click =>
      some { type := .click, selector := selector,
             description :=
               match jsTruthyStr selector with
               | some sel => "Click element \"" ++ sel ++ "\""
               | none => "Click operation" }
  | .change =>
      some { type := .change, selector := selector, value := step.value,
             description :=
               match jsTruthyStr selector with
               | some sel =>
                   "Enter \"" ++ jsStr step.value ++ "\" in element \"" ++ sel ++ "\""
               | none => "Enter \"" ++ jsStr step.value ++ "\"" }
  | .keyDown =>
      some { type := .keyDown, value := step.key,
             description := "Press key \"" ++ jsStr step.key ++ "\"" }
  | .scroll =>
      some { type := .scroll, description := "Scroll operation" }
  | .waitForElement =>
      some { type := .wait, selector := selector,
             description :=
               match jsTruthyStr selector with
               | some sel => "Wait for element \"" ++ sel ++ "\""
               | none => "Wait" }
  | .waitForExpression =>
      some { type := .wait, selector := selector,
             description :=
               match jsTruthyStr selector with
               | some sel => "Wait for element \"" ++ sel ++ "\""
               | none => "Wait" }
  | .setViewport => none
  | .hover => none
  | .doubleClick => none
  | .keyUp => none

/-- `parseRecording` from `chrome-recorder.ts`, applied to an
already-validated recording: project the steps, compute the start URL from
the first `navigate` step (`find` + `?.url || 'unknown'`), and assemble the
metadata. -/
def parseRecording (recording : ChromeRecording) : ParsedRecording :=
  let steps := recording.steps.filterMap convertStepToAction
  let navigateStep := recording.steps.find? (fun s => s.type == StepType.navigate)
  let startUrl := jsOrStr (navigateStep.bind (fun s => s.url)) "unknown"
  { title := recording.title, steps := steps,
    metadata := { url := startUrl, stepCount := steps.length } }

/-! ## Schema validation (`ChromeRecorderStepSchema` / `ChromeRecorderSchema`)

Zod semantics modelled: a `z.object` requires its non-optional keys and
strips unknown keys; an `.optional()` key may be absent (a present key must
have the declared type — `null` does not validate as an optional string);
`z.enum` matches one of the listed strings; `z.array(T)` requires every
element to validate.  The validators return `Option` (`none` = validation
failure); the Zod error-message text is not modelled, no claim observes it. -/

/-- Validate an optional string field. -/
def vOptStr (fields : List (String × Json)) (key : String) : Option (Option String) :=
  match Json.getField fields key with
  | none => some none
  | some (Json.str s) => some (some s)
  | some _ => none

/-- Validate an optional number field. -/
def vOptNum (fields : List (String × Json)) (key : String) : Option (Option Int) :=
  match Json.getField fields key with
  | none => some none
  | some (Json.num n) => some (some n)
  | some _ => none

/-- Validate an optional boolean field. -/
def vOptBool (fields : List (String × Json)) (key : String) : Option (Option Bool) :=
  match Json.getField fields key with
  | none => some none
  | some (Json.bool b) => some (some b)
  | some _ => none

/-- Validate one value against an element validator, for `z.array`. -/
def vList (f : Json → Option α) : Json → Option (List α)
  | Json.arr elems => elems.mapM f
  | _ => none

/-- Validate an optional field with the given value validator. -/
def vOptWith (fields : List (String × Json)) (key : String)
    (f : Json → Option α) : Option (Option α) :=
  match Json.getField fields key with
  | none => some none
  | some v => (f v).map some

/-- `z.enum([...])` for the step `type` field. -/
def vStepType : Json → Option StepType
  | Json.str s =>
      if s = "navigate" then some .navigate
      else if s = "click" then some .click
      else if s = "change" then some .change
      else if s = "keyDown" then some .keyDown
      else if s = "keyUp" then some .keyUp
      else if s = "scroll" then some .scroll
      else if s = "doubleClick" then some .doubleClick
      else if s = "hover" then some .hover
      else if s = "setViewport" then some .setViewport
      else if s = "waitForElement" then some .waitForElement
      else if s = "waitForExpression" then some .waitForExpression
      else none
  | _ => none

/-- Validate one `assertedEvents` entry (`type` required string,
`title`/`url` optional strings). -/
def vAssertedEvent : Json → Option AssertedEvent
  | Json.obj fields => do
      let tj ← Json.getField fields "type"
      let t ← match tj with | Json.str s => some s | _ => none
      let title ← vOptStr fields "title"
      let url ← vOptStr fields "url"
      some { type := t, title := title, url := url }
  | _ => none

/-- A string element of a selector chain. -/
def vStr : Json → Option String
  | Json.str s => some s
  | _ => none

/-- An integer element of a `frame` path. -/
def vNum : Json → Option Int
  | Json.num n => some n
  | _ => none

/-- First third of `ChromeRecorderStepSchema`: `type` (required enum) and the
navigation/selector fields.  The schema validation is staged across three
helpers purely for compilation; `safeParseStep` below is their composition
and validates exactly the fields of `ChromeRecorderStepSchema`. -/
def safeParseStepA (fields : List (String × Json)) : Option ChromeRecorderStep := do
  let tj ← Json.getField fields "type"
  let type ← vStepType tj
  let url ← vOptStr fields "url"
  let selectors ← vOptWith fields "selectors" (vList (vList vStr))
  let offsetX ← vOptNum fields "offsetX"
  let offsetY ← vOptNum fields "offsetY"
  let target ← vOptStr fields "target"
  let frame ← vOptWith fields "frame" (vList vNum)
  some { type := type, url := url, selectors := selectors,
         offsetX := offsetX, offsetY := offsetY, target := target,
         frame := frame }

/-- Second third of `ChromeRecorderStepSchema`: events and textual payloads. -/
def safeParseStepB (fields : List (String × Json)) (base : ChromeRecorderStep) :
    Option ChromeRecorderStep := do
  let assertedEvents ← vOptWith fields "assertedEvents" (vList vAssertedEvent)
  let value ← vOptStr fields "value"
  let key ← vOptStr fields "key"
  let operator ← vOptStr fields "operator"
  let count ← vOptNum fields "count"
  let expression ← vOptStr fields "expression"
  some { base with assertedEvents := assertedEvents, value := value,
                   key := key, operator := operator, count := count,
                   expression := expression }

/-- Last third of `ChromeRecorderStepSchema`: geometry and viewport flags. -/
def safeParseStepC (fields : List (String × Json)) (base : ChromeRecorderStep) :
    Option ChromeRecorderStep := do
  let x ← vOptNum fields "x"
  let y ← vOptNum fields "y"
  let width ← vOptNum fields "width"
  let height ← vOptNum fields "height"
  let deviceScaleFactor ← vOptNum fields "deviceScaleFactor"
  let isMobile ← vOptBool fields "isMobile"
  let hasTouch ← vOptBool fields "hasTouch"
  let isLandscape ← vOptBool fields "isLandscape"
  some { base with x := x, y := y, width := width, height := height,
                   deviceScaleFactor := deviceScaleFactor, isMobile := isMobile,
                   hasTouch := hasTouch, isLandscape := isLandscape }

/-- `ChromeRecorderStepSchema.safeParse` on one step object: a non-object
fails; otherwise every declared field is validated (`type` required, the
rest optional) and unknown keys are stripped. -/
def safeParseStep : Json → Option ChromeRecorderStep
  | Json.obj fields => do
      let a ← safeParseStepA fields
      let b ← safeParseStepB fields a
      safeParseStepC fields b
  | _ => none

/-- `ChromeRecorderSchema.safeParse` on a whole recording. -/
def safeParseRecording : Json → Option ChromeRecording
  | Json.obj fields => do
      let titleJ ← Json.getField fields "title"
      let title ← match titleJ with | Json.str s => some s | _ => none
      let stepsJ ← Json.getField fields "steps"
      let steps ← vList safeParseStep stepsJ
      let timeout ← vOptNum fields "timeout"
      some { title := title, steps := steps, timeout := timeout }
  | _ => none

/-- The closed error hierarchy (`utils/errors.ts`), restricted to the kinds
the claims mention.  `llmError` carries the provider identifier, as in
`LLMError`.  The `ParserError` / `ConfigError` detail strings embedded from
Zod are not re-modelled where no claim observes them. -/
inductive AppError where
  | parserError (msg : String)
  | configError (msg : String)
  | llmError (msg : String) (provider : String)
deriving DecidableEq, Repr

/-- `parseRecording` from `chrome-recorder.ts` on raw JSON: Zod validation,
`ParserError` on failure, then projection of the validated recording. -/
def parseRecordingJson (json : Json) : Except AppError ParsedRecording :=
  match safeParseRecording json with
  | none => Except.error (AppError.parserError "Invalid Chrome Recorder JSON format")
  | some recording => Except.ok (parseRecording recording)

/-! ## Persisted configuration (`config/types.ts`, `config/defaults.ts`,
`config/manager.ts`)

The configuration files are modelled by their validated structured contents:
`ConfigState` holds the optional local-scope file and the optional
global-scope file.  `load` / `save` / `update` operate on this state exactly
as `ConfigManager` does on disk (`findConfigPath`: local over global).
Patch objects (`PartialConfig`) model TypeScript `Partial` types with
`Option` fields: a `some` field is a present key, a `none` field an absent
one (a key explicitly set to `undefined` is modelled as absent, as
`JSON.stringify` drops it). -/

/-- `ProviderName = 'google' | 'anthropic'`. -/
inductive ProviderName where
  | google | anthropic
deriving DecidableEq, BEq, Repr

/-- `language: z.enum(['ja', 'en'])`. -/
inductive ConfigLanguage where
  | ja | en
deriving DecidableEq, BEq, Repr

/-- The `llm.apiKeys` object: both provider keys optional. -/
structure ApiKeys where
  google : Option String := none
  anthropic : Option String := none
deriving DecidableEq, Repr

/-- The `llm` section of `ConfigSchema`. -/
structure LLMSection where
  provider : ProviderName
  model : Option String := none
  apiKeys : Option ApiKeys := none
deriving DecidableEq, Repr

/-- The `output` section (`framework` is the literal `"playwright"` in every
validated configuration). -/
structure OutputSection where
  framework : String
  typescript : Bool
deriving DecidableEq, Repr

/-- The `generation` section. -/
structure GenerationSection where
  includeEdgeCases : Bool
deriving DecidableEq, Repr

/-- `RecToSpecConfig = z.infer<typeof ConfigSchema>`. -/
structure RecToSpecConfig where
  llm : LLMSection
  language : ConfigLanguage
  output : OutputSection
  generation : GenerationSection
deriving DecidableEq, Repr

/-- `DEFAULT_CONFIG` from `config/defaults.ts`. -/
def DEFAULT_CONFIG : RecToSpecConfig :=
  { llm := { provider := ProviderName.google, model := none },
    language := ConfigLanguage.ja,
    output := { framework := "playwright", typescript := true },
    generation := { includeEdgeCases := true } }

/-- `Partial` of the `apiKeys` object. -/
structure ApiKeysPatch where
  google : Option String := none
  anthropic : Option String := none
deriving DecidableEq, Repr

/-- `Partial<RecToSpecConfig['llm']>`. -/
structure LLMPatch where
  provider : Option ProviderName := none
  model : Option String := none
  apiKeys : Option ApiKeysPatch := none
deriving DecidableEq, Repr

/-- `Partial<RecToSpecConfig['output']>`. -/
structure OutputPatch where
  framework : Option String := none
  typescript : Option Bool := none
deriving DecidableEq, Repr

/-- `Partial<RecToSpecConfig['generation']>`. -/
structure GenerationPatch where
  includeEdgeCases : Option Bool := none
deriving DecidableEq, Repr

/-- `PartialConfig` from `config/types.ts`. -/
structure PartialConfig where
  llm : Option LLMPatch := none
  language : Option ConfigLanguage := none
  output : Option OutputPatch := none
  generation : Option GenerationPatch := none
deriving DecidableEq, Repr

/-- The object-spread merge performed by `ConfigManager.update`:
`{ ...currentConfig, ...partialConfig, llm: { ...current.llm, ...partial.llm,
apiKeys: { ...current.llm.apiKeys, ...partial.llm?.apiKeys } }, output: {...},
generation: {...} }`.  A key present in the patch wins; an absent key keeps
the current value; `apiKeys` always becomes a present object after the
spread. -/
def mergeConfig (cur : RecToSpecConfig) (patch : PartialConfig) : RecToSpecConfig :=
  let plm := patch.llm.getD {}
  let capi := cur.llm.apiKeys.getD {}
  let papi := plm.apiKeys.getD {}
  { llm :=
      { provider := plm.provider.getD cur.llm.provider,
        model := plm.model.orElse (fun _ => cur.llm.model),
        apiKeys := some
          { google := papi.google.orElse (fun _ => capi.google),
            anthropic := papi.anthropic.orElse (fun _ => capi.anthropic) } },
    language := patch.language.getD cur.language,
    output :=
      { framework := (patch.output.getD {}).framework.getD cur.output.framework,
        typescript := (patch.output.getD {}).typescript.getD cur.output.typescript },
    generation :=
      { includeEdgeCases :=
          (patch.generation.getD {}).includeEdgeCases.getD
            cur.generation.includeEdgeCases } }

/-- `ConfigScope = 'local' | 'global'`. -/
inductive ConfigScope where
  | localScope | globalScope
deriving DecidableEq, Repr

/-- The two configuration files, by validated structured contents
(`none` = the scope's file does not exist). -/
structure ConfigState where
  localCfg : Option RecToSpecConfig := none
  globalCfg : Option RecToSpecConfig := none
deriving DecidableEq, Repr

/-- `ConfigManager.findConfigPath`: the active scope — local if the local
file exists, else global if it exists, else none. -/
def findConfigPath (s : ConfigState) : Option ConfigScope :=
  match s.localCfg with
  | some _ => some ConfigScope.localScope
  | none =>
    match s.globalCfg with
    | some _ => some ConfigScope.globalScope
    | none => none

/-- `ConfigManager.load`: the active file's contents, or `DEFAULT_CONFIG`
when no file exists.  (Read/parse/validation failures of an existing file
raise `ConfigError` in the source; the state here holds already-validated
contents, which is all the merge claims observe.) -/
def loadConfig (s : ConfigState) : RecToSpecConfig :=
  match s.localCfg with
  | some c => c
  | none =>
    match s.globalCfg with
    | some c => c
    | none => DEFAULT_CONFIG

/-- `ConfigManager.save`: write the configuration to the designated scope's
file. -/
def saveConfig (s : ConfigState) (cfg : RecToSpecConfig) (scope : ConfigScope) :
    ConfigState :=
  match scope with
  | ConfigScope.localScope => { s with localCfg := some cfg }
  | ConfigScope.globalScope => { s with globalCfg := some cfg }

/-- `ConfigManager.update`: load the effective configuration, spread-merge
the patch, save to the designated scope, and return the merged result. -/
def updateConfig (s : ConfigState) (patch : PartialConfig) (scope : ConfigScope) :
    ConfigState × RecToSpecConfig :=
  let merged := mergeConfig (loadConfig s) patch
  (saveConfig s merged scope, merged)

/-- The credential stored in a configuration for a provider:
`config.llm.apiKeys?.[provider]`. -/
def RecToSpecConfig.credential (c : RecToSpecConfig) (p : ProviderName) : Option String :=
  match c.llm.apiKeys with
  | none => none
  | some ks =>
    match p with
    | ProviderName.google => ks.google
    | ProviderName.anthropic => ks.anthropic

/-- The patch's entry for a provider's credential:
`partial.llm?.apiKeys?.[provider]`. -/
def PartialConfig.credentialPatch (patch : PartialConfig) (p : ProviderName) :
    Option String :=
  match patch.llm with
  | none => none
  | some plm =>
    match plm.apiKeys with
    | none => none
    | some ks =>
      match p with
      | ProviderName.google => ks.google
      | ProviderName.anthropic => ks.anthropic

/-! ## Credential resolution (`ConfigManager.getApiKey`,
`provider.ts` `getApiKey`)

The process environment is a function `String → Option String`
(`none` = variable unset).  JS truthiness on the looked-up value
(`if (envKey)`) goes through `jsTruthyStr`. -/

/-- The provider identifier as the runtime string it is in TypeScript. -/
def ProviderName.toStr : ProviderName → String
  | ProviderName.google => "google"
  | ProviderName.anthropic => "anthropic"

/-- `ENV_VAR_NAMES` / the `envVars` record: provider → canonical
environment-variable name. -/
def ENV_VAR_NAME : ProviderName → String
  | ProviderName.google => "GOOGLE_GENERATIVE_AI_API_KEY"
  | ProviderName.anthropic => "ANTHROPIC_API_KEY"

/-- `API_KEY_URLS`: provider → credential-acquisition URL. -/
def API_KEY_URL : ProviderName → String
  | ProviderName.google => "https://aistudio.google.com/app/apikey"
  | ProviderName.anthropic => "https://console.anthropic.com/account/keys"

/-- `ConfigManager.getApiKey`: the environment variable if truthy, else the
loaded configuration's `llm.apiKeys?.[provider]`. -/
def configManagerGetApiKey (env : String → Option String) (s : ConfigState)
    (p : ProviderName) : Option String :=
  match jsTruthyStr (env (ENV_VAR_NAME p)) with
  | some v => some v
  | none => (loadConfig s).credential p

/-- The `ConfigError` message of `provider.ts` `getApiKey` when no source
yields a credential. -/
def apiKeyNotFoundMsg (providerText envVarName url : String) : String :=
  "API key not found for " ++ providerText ++
  ". Please set it using one of the following methods:\n" ++
  "1. Environment variable: export " ++ envVarName ++ "=your-key\n" ++
  "2. .env file: " ++ envVarName ++ "=your-key\n" ++
  "3. Setup command: rectospec init\n" ++
  "\nGet API key: " ++ url

/-- `provider.ts` `getApiKey`: environment first; else the config-file
credential via `configManager.getApiKey`, promoted into the environment;
else a `ConfigError`.  Returns the resolved key together with the resulting
process environment (to expose the one-way promotion). -/
def providerGetApiKey (env : String → Option String) (s : ConfigState)
    (p : ProviderName) :
    Except AppError (String × (String → Option String)) :=
  match jsTruthyStr (env (ENV_VAR_NAME p)) with
  | some v => Except.ok (v, env)
  | none =>
    match jsTruthyStr (configManagerGetApiKey env s p) with
    | some k =>
        Except.ok (k, fun n => if n = ENV_VAR_NAME p then some k else env n)
    | none =>
        Except.error (AppError.configError
          (apiKeyNotFoundMsg p.toStr (ENV_VAR_NAME p) (API_KEY_URL p)))

/-! ## Response extraction (`extractGherkinFromResponse`)

The source matches the regular expression `/\x60\x60\x60gherkin\n([\s\S]*?)\n\x60\x60\x60/`
against the response and returns the trimmed capture, falling back to the
trimmed whole response when there is no match.  For this pattern the regex
semantics are: the match starts at the leftmost occurrence of the opening
fence that is followed (anywhere later) by the closing fence, and the lazy
interior ends at the first closing fence after the opening one.  Since the
closing-fence search region only shrinks for later opening fences, a match
exists iff the first occurrence of the opening fence is followed by a
closing fence — which is what `gherkinMatch` computes. -/

/-- Whether `pat` occurs in `s` starting at index `i`. -/
def occursAt (pat s : List Char) (i : Nat) : Bool :=
  pat.isPrefixOf (s.drop i)

/-- Index of the first occurrence of `pat` in `s`. -/
def findSub (pat : List Char) : List Char → Option Nat
  | [] => if pat.isPrefixOf ([] : List Char) then some 0 else none
  | c :: cs =>
    if pat.isPrefixOf (c :: cs) then some 0
    else (findSub pat cs).map (· + 1)

/-- The opening fence of the matched pattern. -/
def fenceOpen : List Char := "```gherkin\n".data

/-- The closing fence of the matched pattern. -/
def fenceClose : List Char := "\n```".data

/-- The capture of the first regex match, if any: the characters between the
first opening fence and the first closing fence after it. -/
def gherkinMatch (s : List Char) : Option (List Char) :=
  match findSub fenceOpen s with
  | none => none
  | some i =>
    let rest := s.drop (i + fenceOpen.length)
    match findSub fenceClose rest with
    | none => none
    | some j => some (rest.take j)

/-- `extractGherkinFromResponse` from `provider.ts`: trimmed capture of the
first fenced `gherkin` block, else the trimmed whole response. -/
def extractGherkinFromResponse (response : String) : String :=
  match gherkinMatch response.data with
  | some interior => (String.mk interior).trim
  | none => response.trim

/-! ## Runtime (string-keyed) view of provider dispatch, for calls whose
provider identifier is outside the typed closed set

The compiled JavaScript has no type enforcement: `generateGherkin` can be
reached with any string as `config.provider`.  Record lookups
(`ENV_VAR_NAMES[provider]`, `DEFAULT_MODELS[provider]`,
`API_KEY_URLS[provider]`) then yield `undefined`, and
`process.env[undefined]` reads the property named `"undefined"`.
`apiKeysLookupJS` reflects that a Zod-validated configuration object has
only the `google` / `anthropic` keys (unknown keys are stripped), so an
index by any other name is `undefined`. -/

/-- `ENV_VAR_NAMES[provider]` for an arbitrary runtime string. -/
def envVarNameJS (p : String) : Option String :=
  if p = "google" then some "GOOGLE_GENERATIVE_AI_API_KEY"
  else if p = "anthropic" then some "ANTHROPIC_API_KEY"
  else none

/-- `DEFAULT_MODELS[provider]` for an arbitrary runtime string. -/
def defaultModelJS (p : String) : Option String :=
  if p = "google" then some "gemini-2.0-flash-lite"
  else if p = "anthropic" then some "claude-sonnet-4"
  else none

/-- `API_KEY_URLS[provider]` for an arbitrary runtime string. -/
def apiKeyUrlJS (p : String) : Option String :=
  if p = "google" then some "https://aistudio.google.com/app/apikey"
  else if p = "anthropic" then some "https://console.anthropic.com/account/keys"
  else none

/-- `config.llm.apiKeys?.[provider]` with a runtime string index: a
validated `apiKeys` object holds only the two known keys. -/
def apiKeysLookupJS (c : RecToSpecConfig) (p : String) : Option String :=
  match c.llm.apiKeys with
  | none => none
  | some ks =>
    if p = "google" then ks.google
    else if p = "anthropic" then ks.anthropic
    else none

/-- `process.env[name]` where `name : string | undefined`:
an `undefined` name indexes the property literally called `"undefined"`. -/
def envIndexJS (env : String → Option String) (name : Option String) : Option String :=
  env (name.getD "undefined")

/-- `ConfigManager.getApiKey` as reached with a runtime provider string. -/
def configManagerGetApiKeyJS (env : String → Option String) (s : ConfigState)
    (p : String) : Option String :=
  match jsTruthyStr (envIndexJS env (envVarNameJS p)) with
  | some v => some v
  | none => apiKeysLookupJS (loadConfig s) p

/-- `provider.ts` `getApiKey` as reached with a runtime provider string
(message interpolation coerces the `undefined` lookups via `jsStr`). -/
def providerGetApiKeyJS (env : String → Option String) (s : ConfigState)
    (p : String) :
    Except AppError (String × (String → Option String)) :=
  match jsTruthyStr (envIndexJS env (envVarNameJS p)) with
  | some v => Except.ok (v, env)
  | none =>
    match jsTruthyStr (configManagerGetApiKeyJS env s p) with
    | some k =>
        Except.ok (k, fun n => if some n = envVarNameJS p then some k else env n)
    | none =>
        Except.error (AppError.configError
          (apiKeyNotFoundMsg p (jsStr (envVarNameJS p)) (jsStr (apiKeyUrlJS p))))

/-- `getModel` from `provider.ts`: a string-keyed switch; the default branch
raises `ConfigError: Unsupported provider`.  The returned SDK model value is
opaque and irrelevant to the claims. -/
def getModelJS (p : String) : Except AppError Unit :=
  if p = "google" then Except.ok ()
  else if p = "anthropic" then Except.ok ()
  else Except.error (AppError.configError ("Unsupported provider: " ++ p))

/-- The outcome of `generateGherkin`, together with whether the remote
generation call (`generateText`) was attempted. -/
structure GenerationOutcome where
  result : Except AppError String
  networkAttempted : Bool
deriving Repr

/-- `generateGherkin` from `provider.ts`, with the remote call abstracted as
`net` (the text the one `generateText` call would produce, or the message of
its failure).  Control flow follows the source: resolve
`config.provider || 'google'` and `config.model || DEFAULT_MODELS[provider]`,
resolve the API key (errors propagate uncaught), then inside the
`try` block build the prompt, select the model via `getModel`, and call
`generateText`; any error thrown inside the `try` is re-raised as
`LLMError('Failed to generate Gherkin: ' + message, provider)`.  A success
returns `extractGherkinFromResponse` of the response text. -/
def generateGherkinJS (env : String → Option String) (s : ConfigState)
    (providerOpt modelOpt : Option String) (net : Except String String) :
    GenerationOutcome :=
  let provider := jsOrStr providerOpt "google"
  let _modelName := match jsTruthyStr modelOpt with
    | some m => some m
    | none => defaultModelJS provider
  match providerGetApiKeyJS env s provider with
  | Except.error e => { result := Except.error e, networkAttempted := false }
  | Except.ok _ =>
    match getModelJS provider with
    | Except.error (AppError.configError m) =>
        { result := Except.error (AppError.llmError
            ("Failed to generate Gherkin: " ++ m) provider),
          networkAttempted := false }
    | Except.error e =>
        { result := Except.error e, networkAttempted := false }
    | Except.ok _ =>
      match net with
      | Except.ok text =>
          { result := Except.ok (extractGherkinFromResponse text),
            networkAttempted := true }
      | Except.error m =>
          { result := Except.error (AppError.llmError
              ("Failed to generate Gherkin: " ++ m) provider),
            networkAttempted := true }

/-! ## Flattened patch accessors (for stating the deep-merge law per leaf
field: a `some` value is a key present in the partial update, `none` an
absent one) -/

/-- `partial.llm?.provider`. -/
def PartialConfig.providerPatch (patch : PartialConfig) : Option ProviderName :=
  patch.llm.bind (fun pl => pl.provider)

/-- `partial.llm?.model`. -/
def PartialConfig.modelPatch (patch : PartialConfig) : Option String :=
  patch.llm.bind (fun pl => pl.model)

/-- `partial.language`. -/
def PartialConfig.languagePatch (patch : PartialConfig) : Option ConfigLanguage :=
  patch.language

/-- `partial.output?.framework`. -/
def PartialConfig.frameworkPatch (patch : PartialConfig) : Option String :=
  patch.output.bind (fun po => po.framework)

/-- `partial.output?.typescript`. -/
def PartialConfig.typescriptPatch (patch : PartialConfig) : Option Bool :=
  patch.output.bind (fun po => po.typescript)

/-- `partial.generation?.includeEdgeCases`. -/
def PartialConfig.edgeCasesPatch (patch : PartialConfig) : Option Bool :=
  patch.generation.bind (fun pg => pg.includeEdgeCases)

/-! ## Concrete instances used by scenario claims and witnesses -/

/-- A persisted state for the update/load witness: only a global-scope file
exists, with every field set away from the defaults. -/
def c1State : ConfigState :=
  { globalCfg := some
      { llm := { provider := ProviderName.anthropic, model := some "m0",
                 apiKeys := some { google := some "gk", anthropic := some "ak" } },
        language := ConfigLanguage.en,
        output := { framework := "playwright", typescript := false },
        generation := { includeEdgeCases := false } } }

/-- A partial update for the witness: a new google credential and a new
language, everything else absent. -/
def c1Patch : PartialConfig :=
  { llm := some { apiKeys := some { google := some "gk2" } },
    language := some ConfigLanguage.ja }

/-- A persisted state for the credential-precedence witness: a local file
holding a google credential. -/
def c3State : ConfigState :=
  { localCfg := some
      { llm := { provider := ProviderName.google,
                 apiKeys := some { google := some "cfg-key" } },
        language := ConfigLanguage.ja,
        output := { framework := "playwright", typescript := true },
        generation := { includeEdgeCases := true } } }

/-- The environment of the credential-precedence witness: only the google
variable is set. -/
def c3Env : String → Option String :=
  fun n => if n = "GOOGLE_GENERATIVE_AI_API_KEY" then some "env-key" else none

/-- The raw recording of the normalization scenario:
`{title:"T", steps:[{kind:"navigate",url:"https://a.test"},
{kind:"click",selectors:[["#btn"]]}]}`. -/
def scenarioInput : Json :=
  Json.obj [("title", Json.str "T"),
    ("steps", Json.arr
      [Json.obj [("type", Json.str "navigate"), ("url", Json.str "https://a.test")],
       Json.obj [("type", Json.str "click"),
                 ("selectors", Json.arr [Json.arr [Json.str "#btn"]])]])]

/-- The normalized output the scenario claim asserts (descriptions without
quotation marks around the url / selector). -/
def scenarioClaimedOutput : ParsedRecording :=
  { title := "T",
    steps :=
      [{ type := ActionType.navigate, url := some "https://a.test",
         description := "Navigate to page https://a.test" },
       { type := ActionType.click, selector := some "#btn",
         description := "Click element #btn" }],
    metadata := { url := "https://a.test", stepCount := 2 } }

/-- The normalized output the code actually produces on `scenarioInput`
(the interpolated url / selector is surrounded by quotation marks). -/
def scenarioActualOutput : ParsedRecording :=
  { title := "T",
    steps :=
      [{ type := ActionType.navigate, url := some "https://a.test",
         description := "Navigate to page \"https://a.test\"" },
       { type := ActionType.click, selector := some "#btn",
         description := "Click element \"#btn\"" }],
    metadata := { url := "https://a.test", stepCount := 2 } }

/-- A schema-valid recording whose steps omit the payload fields the
projection reads: `navigate` without `url`, `change` without `value`,
`keyDown` without `key`. -/
def missingPayloadInput : Json :=
  Json.obj [("title", Json.str "T"),
    ("steps", Json.arr
      [Json.obj [("type", Json.str "navigate")],
       Json.obj [("type", Json.str "change")],
       Json.obj [("type", Json.str "keyDown")]])]

/-- What normalization produces on `missingPayloadInput`: absent url/value,
descriptions embedding the text `undefined`. -/
def missingPayloadOutput : ParsedRecording :=
  { title := "T",
    steps :=
      [{ type := ActionType.navigate, description := "Navigate to page \"undefined\"" },
       { type := ActionType.change, description := "Enter \"undefined\"" },
       { type := ActionType.keyDown, description := "Press key \"undefined\"" }],
    metadata := { url := "unknown", stepCount := 3 } }

/-- A valid recording whose only step is a `navigate` without a `url`. -/
def navigateNoUrlRecording : ChromeRecording :=
  { title := "T", steps := [{ type := StepType.navigate }] }

/-- Rendering of the metadata-url claim at one recording: if the recording
has a navigate step, the metadata url equals the url of the first such step
(which the claim asserts to exist); otherwise it is the sentinel
`"unknown"`. -/
def metadataUrlClaim (r : ChromeRecording) : Prop :=
  match r.steps.find? (fun s => s.type == StepType.navigate) with
  | some st => ∃ u, st.url = some u ∧ (parseRecording r).metadata.url = u
  | none => (parseRecording r).metadata.url = "unknown"

/-! ## Theorems -/

/-- `filterMap` keeps the surviving images in their original relative
order: mapped back under `some`, the output is a sublist of the per-element
images. -/
theorem filterMap_map_some_sublist (f : α → Option β) :
    ∀ l : List α, ((l.filterMap f).map Option.some).Sublist (l.map f)
  | [] => by simp
  | a :: l => by
    rw [List.map_cons, List.filterMap_cons]
    cases h : f a with
    | none => exact (filterMap_map_some_sublist f l).cons none
    | some b =>
        rw [List.map_cons]
        exact (filterMap_map_some_sublist f l).cons₂ (some b)

/-- C9: for every valid raw recording, the normalized metadata `stepCount`
equals the length of the normalized action sequence. -/
theorem c9_stepCount_invariant (r : ChromeRecording) :
    (parseRecording r).metadata.stepCount = (parseRecording r).steps.length :=
  rfl

/-- C6: the surviving (non-filtered) actions of the normalized output keep
the relative order of their originating steps: viewed under `some`, the
normalized sequence is a sublist of the in-order projections of the raw
steps. -/
theorem c6_order_preservation (r : ChromeRecording) :
    ((parseRecording r).steps.map Option.some).Sublist
      (r.steps.map convertStepToAction) :=
  filterMap_map_some_sublist convertStepToAction r.steps

/-- C5: a step of kind `setViewport`, `hover`, `doubleClick`, or `keyUp`
projects to no action, and deleting such a step from a recording leaves the
normalized action sequence unchanged — it contributes no entry. -/
theorem c5_filtered_kinds_contribute_nothing
    (title : String) (timeout : Option Int)
    (pre post : List ChromeRecorderStep) (st : ChromeRecorderStep)
    (h : st.type = StepType.setViewport ∨ st.type = StepType.hover ∨
         st.type = StepType.doubleClick ∨ st.type = StepType.keyUp) :
    convertStepToAction st = none ∧
    (parseRecording { title := title, steps := pre ++ st :: post,
                      timeout := timeout }).steps =
      (parseRecording { title := title, steps := pre ++ post,
                        timeout := timeout }).steps := by
  have hnone : convertStepToAction st = none := by
    rcases h with h | h | h | h <;> simp [convertStepToAction, h]
  refine ⟨hnone, ?_⟩
  show (pre ++ st :: post).filterMap convertStepToAction =
    (pre ++ post).filterMap convertStepToAction
  simp [List.filterMap_append, List.filterMap_cons, hnone]

/-- Witness for C5 at a concrete filtered step. -/
theorem c5_filtered_kinds_contribute_nothing_witness :
    ((StepType.setViewport = StepType.setViewport ∨
      StepType.setViewport = StepType.hover ∨
      StepType.setViewport = StepType.doubleClick ∨
      StepType.setViewport = StepType.keyUp) ∧
     (convertStepToAction { type := StepType.setViewport } = none ∧
      (parseRecording { title := "t",
                        steps := [] ++ { type := StepType.setViewport } :: [],
                        timeout := none }).steps =
        (parseRecording { title := "t", steps := [] ++ [],
                          timeout := none }).steps)) :=
  ⟨Or.inl rfl,
   c5_filtered_kinds_contribute_nothing "t" none [] []
     { type := StepType.setViewport } (Or.inl rfl)⟩

/-- C2 counterexample: on the scenario input the normalizer does not produce
the claimed output — the actual description strings surround the
interpolated url / selector with quotation marks
(`Navigate to page "https://a.test"`, `Click element "#btn"`), while the
claim states them without quotation marks. -/
theorem c2_scenario_counterexample :
    parseRecordingJson scenarioInput = Except.ok scenarioActualOutput ∧
    parseRecordingJson scenarioInput ≠ Except.ok scenarioClaimedOutput := by
  have hact : parseRecordingJson scenarioInput =
      Except.ok scenarioActualOutput := rfl
  refine ⟨hact, ?_⟩
  intro h
  rw [hact] at h
  exact absurd (Except.ok.inj h) (by decide)

/-- C2 (amended): normalizing the scenario raw recording produces exactly
the title, the two projected actions and the metadata asserted by the
claim, with the description strings
`Navigate to page "https://a.test"` and `Click element "#btn"` (the
interpolated url / selector is quoted). -/
theorem c2_scenario_amended :
    parseRecordingJson scenarioInput = Except.ok scenarioActualOutput :=
  rfl

/-- C10: a recording whose steps are a `navigate` without `url`, a `change`
without `value` and a `keyDown` without `key` still validates, normalization
succeeds, and the produced actions carry absent url/value with descriptions
embedding the text `undefined`. -/
theorem c10_missing_payload_fields_validate :
    (∃ r, safeParseRecording missingPayloadInput = some r) ∧
    parseRecordingJson missingPayloadInput = Except.ok missingPayloadOutput ∧
    ∀ a ∈ missingPayloadOutput.steps,
      a.url = none ∧ a.value = none ∧
      (findSub "undefined".data a.description.data).isSome = true := by
  refine ⟨⟨_, rfl⟩, rfl, ?_⟩
  decide

/-- C4 counterexample: the recording whose only step is a `navigate` without
a `url` is valid and contains a navigate step, yet the normalized metadata
url is the sentinel `"unknown"` and there is no step url for it to equal —
the claimed dichotomy fails on it. -/
theorem c4_metadata_url_counterexample :
    ¬ metadataUrlClaim navigateNoUrlRecording ∧
    (parseRecording navigateNoUrlRecording).metadata.url = "unknown" := by
  constructor
  · intro h
    obtain ⟨u, hu, _⟩ := h
    simp at hu
  · rfl

/-- C4 (amended): the normalized metadata url equals the url of the first
navigate step when that step carries a non-empty url; when the first
navigate step has an absent or empty url, or when no navigate step exists,
the metadata url is the sentinel `"unknown"`. -/
theorem c4_metadata_url_amended (r : ChromeRecording) :
    (∀ st u, r.steps.find? (fun s => s.type == StepType.navigate) = some st →
       st.url = some u → u ≠ "" → (parseRecording r).metadata.url = u) ∧
    (∀ st, r.steps.find? (fun s => s.type == StepType.navigate) = some st →
       (st.url = none ∨ st.url = some "") →
       (parseRecording r).metadata.url = "unknown") ∧
    (r.steps.find? (fun s => s.type == StepType.navigate) = none →
       (parseRecording r).metadata.url = "unknown") := by
  refine ⟨?_, ?_, ?_⟩
  · intro st u hfind hurl hne
    show jsOrStr ((r.steps.find? (fun s => s.type == StepType.navigate)).bind
      (fun s => s.url)) "unknown" = u
    rw [hfind]
    simp [jsOrStr, jsTruthyStr, hurl, hne]
  · intro st hfind hurl
    show jsOrStr ((r.steps.find? (fun s => s.type == StepType.navigate)).bind
      (fun s => s.url)) "unknown" = "unknown"
    rw [hfind]
    rcases hurl with h | h <;> simp [jsOrStr, jsTruthyStr, h]
  · intro hfind
    show jsOrStr ((r.steps.find? (fun s => s.type == StepType.navigate)).bind
      (fun s => s.url)) "unknown" = "unknown"
    rw [hfind]
    rfl

/-- Witness for C4 (amended) at three concrete recordings: a navigate step
with a url, a navigate step without one, and no navigate step at all. -/
theorem c4_metadata_url_amended_witness :
    (parseRecording { title := "T",
                      steps := [{ type := StepType.navigate,
                                  url := some "https://a.test" }] }).metadata.url
      = "https://a.test" ∧
    (parseRecording navigateNoUrlRecording).metadata.url = "unknown" ∧
    (parseRecording { title := "T", steps := [] }).metadata.url = "unknown" :=
  ⟨(c4_metadata_url_amended _).1
      { type := StepType.navigate, url := some "https://a.test" }
      "https://a.test" rfl rfl (by decide),
   (c4_metadata_url_amended _).2.1 { type := StepType.navigate } rfl (Or.inl rfl),
   (c4_metadata_url_amended _).2.2 rfl⟩

/-- C1: `update(partial, scope)` followed by `load()` resolving to the same
scope (local scope, or global scope with no local file shadowing it) yields
exactly the spread-merge of the pre-update effective configuration with the
partial: every leaf field present in the partial takes the new value and
every absent leaf field keeps its pre-update value, nested sections merging
recursively; the `credentials` map merges key-by-key, so a partial that does
not mention a provider's credential leaves that provider's stored credential
unchanged. -/
theorem c1_update_then_load_deep_merge
    (s : ConfigState) (patch : PartialConfig) (scope : ConfigScope)
    (hscope : scope = ConfigScope.localScope ∨ s.localCfg = none) :
    loadConfig (updateConfig s patch scope).1 =
      mergeConfig (loadConfig s) patch ∧
    (loadConfig (updateConfig s patch scope).1).llm.provider =
      patch.providerPatch.getD (loadConfig s).llm.provider ∧
    (loadConfig (updateConfig s patch scope).1).llm.model =
      patch.modelPatch.orElse (fun _ => (loadConfig s).llm.model) ∧
    (∀ p, (loadConfig (updateConfig s patch scope).1).credential p =
      (patch.credentialPatch p).orElse (fun _ => (loadConfig s).credential p)) ∧
    (loadConfig (updateConfig s patch scope).1).language =
      patch.languagePatch.getD (loadConfig s).language ∧
    (loadConfig (updateConfig s patch scope).1).output.framework =
      patch.frameworkPatch.getD (loadConfig s).output.framework ∧
    (loadConfig (updateConfig s patch scope).1).output.typescript =
      patch.typescriptPatch.getD (loadConfig s).output.typescript ∧
    (loadConfig (updateConfig s patch scope).1).generation.includeEdgeCases =
      patch.edgeCasesPatch.getD (loadConfig s).generation.includeEdgeCases ∧
    (∀ p, patch.credentialPatch p = none →
      (loadConfig (updateConfig s patch scope).1).credential p =
        (loadConfig s).credential p) := by
  have hload : loadConfig (updateConfig s patch scope).1 =
      mergeConfig (loadConfig s) patch := by
    rcases hscope with h | h
    · subst h; rfl
    · cases scope
      · rfl
      · show loadConfig { s with globalCfg := some _ } = _
        cases hs : s.localCfg with
        | none => simp [loadConfig, hs]
        | some c => rw [hs] at h; cases h
  rw [hload]
  obtain ⟨pllm, plang, pout, pgen⟩ := patch
  have hcred : ∀ p,
      (mergeConfig (loadConfig s) ⟨pllm, plang, pout, pgen⟩).credential p =
      (PartialConfig.credentialPatch ⟨pllm, plang, pout, pgen⟩ p).orElse
        (fun _ => (loadConfig s).credential p) := by
    intro p
    rcases pllm with _ | ⟨pp, pm, pk⟩ <;>
      [skip; rcases pk with _ | ⟨pkg, pka⟩] <;>
      cases p <;>
      rcases hc : (loadConfig s).llm.apiKeys with _ | ⟨cg, ca⟩ <;>
      simp [mergeConfig, RecToSpecConfig.credential,
            PartialConfig.credentialPatch, hc]
  refine ⟨rfl, ?_, ?_, hcred, ?_, ?_, ?_, ?_, ?_⟩
  · rcases pllm with _ | ⟨pp, pm, pk⟩ <;>
      simp [mergeConfig, PartialConfig.providerPatch]
  · rcases pllm with _ | ⟨pp, pm, pk⟩ <;>
      simp [mergeConfig, PartialConfig.modelPatch]
  · rfl
  · rcases pout with _ | ⟨pf, pt⟩ <;>
      simp [mergeConfig, PartialConfig.frameworkPatch]
  · rcases pout with _ | ⟨pf, pt⟩ <;>
      simp [mergeConfig, PartialConfig.typescriptPatch]
  · rcases pgen with _ | ⟨pe⟩ <;>
      simp [mergeConfig, PartialConfig.edgeCasesPatch]
  · intro p hp
    rw [hcred p, hp]
    rfl

/-- Witness for C1: a local-scope update of the google credential and the
language against a state whose global file sets every field. -/
theorem c1_update_then_load_deep_merge_witness :
    (ConfigScope.localScope = ConfigScope.localScope ∨ c1State.localCfg = none) ∧
    (loadConfig (updateConfig c1State c1Patch ConfigScope.localScope).1 =
       mergeConfig (loadConfig c1State) c1Patch ∧
     (loadConfig (updateConfig c1State c1Patch ConfigScope.localScope).1).llm.provider =
       c1Patch.providerPatch.getD (loadConfig c1State).llm.provider ∧
     (loadConfig (updateConfig c1State c1Patch ConfigScope.localScope).1).llm.model =
       c1Patch.modelPatch.orElse (fun _ => (loadConfig c1State).llm.model) ∧
     (∀ p, (loadConfig (updateConfig c1State c1Patch ConfigScope.localScope).1).credential p =
       (c1Patch.credentialPatch p).orElse (fun _ => (loadConfig c1State).credential p)) ∧
     (loadConfig (updateConfig c1State c1Patch ConfigScope.localScope).1).language =
       c1Patch.languagePatch.getD (loadConfig c1State).language ∧
     (loadConfig (updateConfig c1State c1Patch ConfigScope.localScope).1).output.framework =
       c1Patch.frameworkPatch.getD (loadConfig c1State).output.framework ∧
     (loadConfig (updateConfig c1State c1Patch ConfigScope.localScope).1).output.typescript =
       c1Patch.typescriptPatch.getD (loadConfig c1State).output.typescript ∧
     (loadConfig (updateConfig c1State c1Patch ConfigScope.localScope).1).generation.includeEdgeCases =
       c1Patch.edgeCasesPatch.getD (loadConfig c1State).generation.includeEdgeCases ∧
     (∀ p, c1Patch.credentialPatch p = none →
       (loadConfig (updateConfig c1State c1Patch ConfigScope.localScope).1).credential p =
         (loadConfig c1State).credential p)) :=
  ⟨Or.inl rfl,
   c1_update_then_load_deep_merge c1State c1Patch ConfigScope.localScope (Or.inl rfl)⟩

/-- C3: when a provider's canonical environment variable holds a (non-empty)
value and a persisted credential also exists for that provider, credential
resolution — both `ConfigManager.getApiKey` and the provider gateway's
`getApiKey` — returns the environment value, leaving the environment
unchanged. -/
theorem c3_env_over_persisted_credential
    (env : String → Option String) (s : ConfigState) (p : ProviderName)
    (v w : String)
    (henv : env (ENV_VAR_NAME p) = some v) (hv : v ≠ "")
    (_hcfg : (loadConfig s).credential p = some w) :
    configManagerGetApiKey env s p = some v ∧
    providerGetApiKey env s p = Except.ok (v, env) := by
  constructor <;>
    simp [configManagerGetApiKey, providerGetApiKey, jsTruthyStr, henv, hv]

/-- Witness for C3: google's variable set to `env-key` while the persisted
local configuration stores `cfg-key`; resolution returns `env-key`. -/
theorem c3_env_over_persisted_credential_witness :
    c3Env (ENV_VAR_NAME ProviderName.google) = some "env-key" ∧
    ("env-key" : String) ≠ "" ∧
    (loadConfig c3State).credential ProviderName.google = some "cfg-key" ∧
    (configManagerGetApiKey c3Env c3State ProviderName.google = some "env-key" ∧
     providerGetApiKey c3Env c3State ProviderName.google =
       Except.ok ("env-key", c3Env)) :=
  ⟨rfl, by decide, rfl,
   c3_env_over_persisted_credential c3Env c3State ProviderName.google
     "env-key" "cfg-key" rfl (by decide) rfl⟩

/-- C8: a generation call whose provider identifier is a non-empty string
outside the closed supported set (and whose process environment has no
variable literally named `undefined`, the name the compiled record lookup
degenerates to) fails with a `ConfigError` — not an `LLMError` — and the
remote generation call is never attempted. -/
theorem c8_unsupported_provider_fails_with_config_error
    (env : String → Option String) (s : ConfigState)
    (modelOpt : Option String) (net : Except String String) (p : String)
    (hg : p ≠ "google") (ha : p ≠ "anthropic") (hne : p ≠ "")
    (hundef : env "undefined" = none) :
    (generateGherkinJS env s (some p) modelOpt net).networkAttempted = false ∧
    ∃ m, (generateGherkinJS env s (some p) modelOpt net).result =
      Except.error (AppError.configError m) := by
  have hprov : jsOrStr (some p) "google" = p := by
    simp [jsOrStr, jsTruthyStr, hne]
  have hvn : envVarNameJS p = none := by
    simp [envVarNameJS, hg, ha]
  have henvkey : jsTruthyStr (envIndexJS env (envVarNameJS p)) = none := by
    simp [envIndexJS, hvn, hundef, jsTruthyStr]
  have hcfgkey : configManagerGetApiKeyJS env s p = none := by
    simp [configManagerGetApiKeyJS, henvkey, apiKeysLookupJS, hg, ha]
    cases (loadConfig s).llm.apiKeys <;> simp [hg, ha]
  have hresolve : providerGetApiKeyJS env s p =
      Except.error (AppError.configError
        (apiKeyNotFoundMsg p (jsStr (envVarNameJS p)) (jsStr (apiKeyUrlJS p)))) := by
    simp only [providerGetApiKeyJS, henvkey, hcfgkey]
    rfl
  constructor <;>
    simp [generateGherkinJS, hprov, hresolve]

/-- Witness for C8 at the concrete unsupported identifier `openai` in an
empty environment and an empty configuration state. -/
theorem c8_unsupported_provider_fails_with_config_error_witness :
    ("openai" : String) ≠ "google" ∧ ("openai" : String) ≠ "anthropic" ∧
    ("openai" : String) ≠ "" ∧
    (fun _ => (none : Option String)) "undefined" = (none : Option String) ∧
    ((generateGherkinJS (fun _ => none) {} (some "openai") none
        (Except.ok "resp")).networkAttempted = false ∧
     ∃ m, (generateGherkinJS (fun _ => none) {} (some "openai") none
        (Except.ok "resp")).result = Except.error (AppError.configError m)) :=
  ⟨by decide, by decide, by decide, rfl,
   c8_unsupported_provider_fails_with_config_error (fun _ => none) {} none
     (Except.ok "resp") "openai" (by decide) (by decide) (by decide) rfl⟩

/-- `isPrefixOf` holds on an extension of the pattern itself. -/
theorem isPrefixOf_append_self : ∀ (p r : List Char), p.isPrefixOf (p ++ r) = true
  | [], r => by cases r <;> rfl
  | c :: cs, r => by
      simp [List.isPrefixOf, isPrefixOf_append_self cs r]

/-- `findSub` finds the first occurrence: if `pat` occurs at `n` and at no
earlier index, the search returns `n`. -/
theorem findSub_eq_some (pat : List Char) :
    ∀ (s : List Char) (n : Nat), occursAt pat s n = true →
      (∀ i, i < n → occursAt pat s i = false) → findSub pat s = some n := by
  intro s
  induction s with
  | nil =>
    intro n h hmin
    cases n with
    | zero =>
      unfold occursAt at h
      simp only [List.drop_nil] at h
      simp [findSub, h]
    | succ n =>
      exfalso
      have h0 := hmin 0 (Nat.succ_pos n)
      unfold occursAt at h h0
      simp only [List.drop_nil] at h h0
      rw [h] at h0
      exact Bool.noConfusion h0
  | cons c cs ih =>
    intro n h hmin
    cases n with
    | zero =>
      unfold occursAt at h
      simp only [List.drop_zero] at h
      simp [findSub, h]
    | succ n =>
      have h0 := hmin 0 (Nat.succ_pos n)
      unfold occursAt at h0
      simp only [List.drop_zero] at h0
      have hcs : occursAt pat cs n = true := by
        unfold occursAt at h ⊢
        simpa [List.drop_succ_cons] using h
      have hmin' : ∀ i, i < n → occursAt pat cs i = false := by
        intro i hi
        have := hmin (i + 1) (Nat.succ_lt_succ hi)
        unfold occursAt at this ⊢
        simpa [List.drop_succ_cons] using this
      simp [findSub, h0, ih n hcs hmin']

/-- `findSub` finds nothing when the pattern occurs nowhere. -/
theorem findSub_eq_none (pat : List Char) :
    ∀ s : List Char, (∀ i, occursAt pat s i = false) → findSub pat s = none := by
  intro s
  induction s with
  | nil =>
    intro h
    have h0 := h 0
    unfold occursAt at h0
    simp only [List.drop_nil] at h0
    simp [findSub, h0]
  | cons c cs ih =>
    intro h
    have h0 := h 0
    unfold occursAt at h0
    simp only [List.drop_zero] at h0
    have hcs : ∀ i, occursAt pat cs i = false := by
      intro i
      have := h (i + 1)
      unfold occursAt at this ⊢
      simpa [List.drop_succ_cons] using this
    simp [findSub, h0, ih hcs]

/-- C7: a response that decomposes as `A ++ open ++ S ++ close ++ B`, where
no opening fence occurs before the block and no closing fence occurs inside
`S` (the rendering of "exactly one fenced block tagged `gherkin` with
interior `S`"), extracts to `S` exactly (after trim); and a response in
which the opening fence occurs nowhere extracts to the whole response
trimmed.  Extraction is a total function: it throws on no input. -/
theorem c7_extract_fenced_block :
    (∀ A S B : List Char,
      (∀ i, i < A.length →
        occursAt fenceOpen (A ++ (fenceOpen ++ (S ++ (fenceClose ++ B)))) i = false) →
      (∀ j, j < S.length →
        occursAt fenceClose (S ++ (fenceClose ++ B)) j = false) →
      extractGherkinFromResponse
        (String.mk (A ++ (fenceOpen ++ (S ++ (fenceClose ++ B))))) =
        (String.mk S).trim) ∧
    (∀ t : String,
      (∀ i, i ≤ t.data.length → occursAt fenceOpen t.data i = false) →
      extractGherkinFromResponse t = t.trim) := by
  constructor
  · intro A S B hA hS
    have hoccA : occursAt fenceOpen
        (A ++ (fenceOpen ++ (S ++ (fenceClose ++ B)))) A.length = true := by
      unfold occursAt
      rw [List.drop_left]
      exact isPrefixOf_append_self _ _
    have h1 : findSub fenceOpen
        (A ++ (fenceOpen ++ (S ++ (fenceClose ++ B)))) = some A.length :=
      findSub_eq_some _ _ _ hoccA hA
    have hoccS : occursAt fenceClose
        (S ++ (fenceClose ++ B)) S.length = true := by
      unfold occursAt
      rw [List.drop_left]
      exact isPrefixOf_append_self _ _
    have h2 : findSub fenceClose (S ++ (fenceClose ++ B)) = some S.length :=
      findSub_eq_some _ _ _ hoccS hS
    have hrest : (A ++ (fenceOpen ++ (S ++ (fenceClose ++ B)))).drop
        (A.length + fenceOpen.length) = S ++ (fenceClose ++ B) := by
      rw [← List.append_assoc A fenceOpen (S ++ (fenceClose ++ B)),
          ← List.length_append A fenceOpen, List.drop_left]
    have hm : gherkinMatch (A ++ (fenceOpen ++ (S ++ (fenceClose ++ B)))) =
        some S := by
      unfold gherkinMatch
      rw [h1]
      simp only [hrest, h2]
      rw [List.take_left]
    have hdata : (String.mk (A ++ (fenceOpen ++ (S ++ (fenceClose ++ B))))).data =
        A ++ (fenceOpen ++ (S ++ (fenceClose ++ B))) := rfl
    unfold extractGherkinFromResponse
    rw [hdata, hm]
  · intro t h
    have hall : ∀ i, occursAt fenceOpen t.data i = false := by
      intro i
      by_cases hi : i ≤ t.data.length
      · exact h i hi
      · unfold occursAt
        rw [List.drop_eq_nil_of_le (Nat.le_of_lt (Nat.lt_of_not_le hi))]
        rfl
    have hgm : gherkinMatch t.data = none := by
      unfold gherkinMatch
      rw [findSub_eq_none fenceOpen t.data hall]
    unfold extractGherkinFromResponse
    rw [hgm]

/-- Witness for C7: a response with one fenced `gherkin` block whose
interior is `Feature: X`, and a fence-free response `plain`. -/
theorem c7_extract_fenced_block_witness :
    (∀ i, i < ("pre ".data).length →
      occursAt fenceOpen
        ("pre ".data ++ (fenceOpen ++ ("Feature: X".data ++
          (fenceClose ++ " post".data)))) i = false) ∧
    (∀ j, j < ("Feature: X".data).length →
      occursAt fenceClose
        ("Feature: X".data ++ (fenceClose ++ " post".data)) j = false) ∧
    extractGherkinFromResponse
      (String.mk ("pre ".data ++ (fenceOpen ++ ("Feature: X".data ++
        (fenceClose ++ " post".data))))) = (String.mk "Feature: X".data).trim ∧
    (∀ i, i ≤ ("plain" : String).data.length →
      occursAt fenceOpen ("plain" : String).data i = false) ∧
    extractGherkinFromResponse "plain" = ("plain" : String).trim :=
  ⟨by decide, by decide,
   c7_extract_fenced_block.1 "pre ".data "Feature: X".data " post".data
     (by decide) (by decide),
   by decide,
   c7_extract_fenced_block.2 "plain" (by decide)⟩
